import Mathlib

/-!
Verification of the triage-classification core of the emergency-response
dashboard (`src/main.rs`).  The data model and the classification functions
are embedded shallowly: Rust `i32` values become `Int` (the classifiers only
compare, never compute, so no overflow is possible), tuples become `Prod`,
and the inline chat "Send" button handler becomes an explicit state-passing
function.  Nondeterministic inputs of the original (`Uuid::new_v4()`,
`Local::now()`) are passed in as explicit parameters.
-/

/-- Severity enumeration `TriageLevel` from `src/main.rs` lines 27-33. -/
inductive TriageLevel where
  | Critical
  | High
  | Medium
  | Low
deriving DecidableEq, Repr

/-- `TriageLevel::color` (lines 36-43); `Color32::from_rgb(r,g,b)` is
modelled as the triple of its byte arguments. -/
def TriageLevel.color : TriageLevel → Nat × Nat × Nat
  | .Critical => (231, 76, 60)
  | .High => (243, 156, 18)
  | .Medium => (241, 196, 15)
  | .Low => (46, 204, 113)

/-- `TriageLevel::text` (lines 45-52). -/
def TriageLevel.text : TriageLevel → String
  | .Critical => "CRITICAL"
  | .High => "HIGH"
  | .Medium => "MEDIUM"
  | .Low => "LOW"

/-- `VitalSigns` struct (lines 55-61).  `temperature: f32` is carried but
never read by any classifier; it is modelled as `Float`. -/
structure VitalSigns where
  blood_pressure : Int × Int
  heart_rate : Int
  oxygen_saturation : Int
  temperature : Float

/-- `VitalSigns::bp_status` (lines 64-72). -/
def VitalSigns.bp_status (self : VitalSigns) : TriageLevel :=
  if self.blood_pressure.1 > 180 || self.blood_pressure.2 > 120 then
    TriageLevel.Critical
  else if self.blood_pressure.1 > 140 || self.blood_pressure.2 > 90 then
    TriageLevel.High
  else
    TriageLevel.Low

/-- `VitalSigns::hr_status` (lines 74-82). -/
def VitalSigns.hr_status (self : VitalSigns) : TriageLevel :=
  if self.heart_rate < 50 || self.heart_rate > 120 then
    TriageLevel.Critical
  else if self.heart_rate < 60 || self.heart_rate > 100 then
    TriageLevel.High
  else
    TriageLevel.Low

/-- `VitalSigns::o2_status` (lines 84-92). -/
def VitalSigns.o2_status (self : VitalSigns) : TriageLevel :=
  if self.oxygen_saturation < 90 then
    TriageLevel.Critical
  else if self.oxygen_saturation < 95 then
    TriageLevel.High
  else
    TriageLevel.Low

/-- `Patient` struct (lines 95-109).  `DateTime<Local>` timestamps are
abstracted to `Nat`. -/
structure Patient where
  id : String
  age : Nat
  gender : String
  chief_complaint : String
  triage_level : TriageLevel
  vitals : VitalSigns
  location : String
  eta_minutes : Option Nat
  ambulance_id : Option String
  paramedic : Option String
  notes : List String
  timestamp : Nat

/-- `create_demo_patients` (lines 904-983).  `Local::now()` is passed in
as the explicit parameter `now`. -/
def create_demo_patients (now : Nat) : List Patient :=
  [ { id := "PATIENT-001"
      age := 45
      gender := "M"
      chief_complaint := "Chest Pain"
      triage_level := TriageLevel.Critical
      vitals := { blood_pressure := (180, 120)
                  heart_rate := 45
                  oxygen_saturation := 89
                  temperature := 37.2 }
      location := "Sheikh Zayed Road, near DIFC Metro Station"
      eta_minutes := some 7
      ambulance_id := some "AMB-DXB-047"
      paramedic := some "Hassan Al-Rashid"
      notes := []
      timestamp := now },
    { id := "PATIENT-002"
      age := 28
      gender := "F"
      chief_complaint := "Motor Vehicle Accident"
      triage_level := TriageLevel.High
      vitals := { blood_pressure := (140, 85)
                  heart_rate := 95
                  oxygen_saturation := 96
                  temperature := 36.8 }
      location := "Al Khaleej Road, near Dubai Mall"
      eta_minutes := some 12
      ambulance_id := some "AMB-DXB-112"
      paramedic := some "Fatima Al-Zahra"
      notes := []
      timestamp := now },
    { id := "PATIENT-003"
      age := 8
      gender := "M"
      chief_complaint := "Respiratory Distress"
      triage_level := TriageLevel.Medium
      vitals := { blood_pressure := (110, 70)
                  heart_rate := 125
                  oxygen_saturation := 91
                  temperature := 38.5 }
      location := "Jumeirah Beach Road, near Jumeirah Beach"
      eta_minutes := some 18
      ambulance_id := some "AMB-DXB-093"
      paramedic := some "John Mitchell"
      notes := []
      timestamp := now },
    { id := "PATIENT-004"
      age := 35
      gender := "F"
      chief_complaint := "Minor Laceration"
      triage_level := TriageLevel.Low
      vitals := { blood_pressure := (120, 80)
                  heart_rate := 72
                  oxygen_saturation := 99
                  temperature := 36.5 }
      location := "Dubai Hospital - Triage Room 3"
      eta_minutes := none
      ambulance_id := none
      paramedic := none
      notes := []
      timestamp := now } ]

/-- `ChatMessage` struct (lines 128-135).  `Uuid` and `DateTime<Local>`
are abstracted to `Nat`. -/
structure ChatMessage where
  id : Nat
  sender : String
  message : String
  timestamp : Nat
  urgent : Bool
deriving DecidableEq, Repr

/-- The chat-relevant fields of `EmergencyApp` (lines 138-149):
`chat_messages` and `chat_input`.  The other fields are untouched by the
Send handler. -/
structure ChatState where
  chat_messages : List ChatMessage
  chat_input : String
deriving DecidableEq, Repr

/-- Model of Rust `str::trim().is_empty()`: the trimmed string is empty
exactly when every character of the string is whitespace. -/
def trimIsEmpty (s : String) : Bool :=
  s.toList.all Char.isWhitespace

/-- The Send-button click handler inside `EmergencyApp::render_chat_panel`
(lines 873-886): if the trimmed input is non-empty, push a new message
(fresh UUID and current time passed in as `freshId`/`now`) whose text is
the untrimmed input, then clear the input; otherwise do nothing. -/
def sendChatMessage (freshId now : Nat) (self : ChatState) : ChatState :=
  if !(trimIsEmpty self.chat_input) then
    { chat_messages := self.chat_messages ++
        [{ id := freshId
           sender := "Dr. Ahmed Al-Mansoori"
           message := self.chat_input
           timestamp := now
           urgent := false }]
      chat_input := "" }
  else
    self

/-- Rank of a severity level in the escalating order
`Low < Medium < High < Critical`. -/
def TriageLevel.rank : TriageLevel → Nat
  | .Low => 0
  | .Medium => 1
  | .High => 2
  | .Critical => 3

/-- Claim C1: for every pair of integers, `bp_status` returns `Critical`
iff `S > 180` or `D > 120`; otherwise `High` iff `S > 140` or `D > 90`;
otherwise `Low`; and it never returns `Medium`. -/
theorem bp_classifier_thresholds (v : VitalSigns) :
    (v.bp_status = TriageLevel.Critical ↔
      v.blood_pressure.1 > 180 ∨ v.blood_pressure.2 > 120) ∧
    (v.bp_status = TriageLevel.High ↔
      (v.blood_pressure.1 ≤ 180 ∧ v.blood_pressure.2 ≤ 120) ∧
      (v.blood_pressure.1 > 140 ∨ v.blood_pressure.2 > 90)) ∧
    (v.bp_status = TriageLevel.Low ↔
      v.blood_pressure.1 ≤ 140 ∧ v.blood_pressure.2 ≤ 90) ∧
    v.bp_status ≠ TriageLevel.Medium := by
  unfold VitalSigns.bp_status
  split_ifs <;> simp_all <;> omega

/-- Claim C3: for every integer heart rate, `hr_status` returns `Critical`
iff `R < 50` or `R > 120`; otherwise `High` iff `R < 60` or `R > 100`;
otherwise `Low`. -/
theorem hr_classifier_thresholds (v : VitalSigns) :
    (v.hr_status = TriageLevel.Critical ↔
      v.heart_rate < 50 ∨ v.heart_rate > 120) ∧
    (v.hr_status = TriageLevel.High ↔
      (50 ≤ v.heart_rate ∧ v.heart_rate ≤ 120) ∧
      (v.heart_rate < 60 ∨ v.heart_rate > 100)) ∧
    (v.hr_status = TriageLevel.Low ↔
      60 ≤ v.heart_rate ∧ v.heart_rate ≤ 100) ∧
    v.hr_status ≠ TriageLevel.Medium := by
  unfold VitalSigns.hr_status
  split_ifs <;> simp_all <;> omega

set_option linter.unnecessarySeqFocus false in
/-- Claim C4: for every integer saturation, `o2_status` returns `Critical`
iff `O < 90`; otherwise `High` iff `O < 95`; otherwise `Low`. -/
theorem o2_classifier_thresholds (v : VitalSigns) :
    (v.o2_status = TriageLevel.Critical ↔ v.oxygen_saturation < 90) ∧
    (v.o2_status = TriageLevel.High ↔
      90 ≤ v.oxygen_saturation ∧ v.oxygen_saturation < 95) ∧
    (v.o2_status = TriageLevel.Low ↔ 95 ≤ v.oxygen_saturation) ∧
    v.o2_status ≠ TriageLevel.Medium := by
  unfold VitalSigns.o2_status
  split_ifs <;> simp_all <;> try omega

/-- Claim C5: none of the three classifiers ever returns `Medium`, for any
vital-signs record (hence for any integer input). -/
theorem classifiers_never_medium (v : VitalSigns) :
    v.bp_status ≠ TriageLevel.Medium ∧
    v.hr_status ≠ TriageLevel.Medium ∧
    v.o2_status ≠ TriageLevel.Medium := by
  unfold VitalSigns.bp_status VitalSigns.hr_status VitalSigns.o2_status
  refine ⟨?_, ?_, ?_⟩ <;> split_ifs <;> simp

/-- Claim C6: each classifier is total over all integer inputs (including
negative values and saturations above 100): it always returns one of the
three levels `Critical`, `High`, `Low`, never failing. -/
theorem classifiers_total (v : VitalSigns) :
    (v.bp_status = TriageLevel.Critical ∨ v.bp_status = TriageLevel.High ∨
      v.bp_status = TriageLevel.Low) ∧
    (v.hr_status = TriageLevel.Critical ∨ v.hr_status = TriageLevel.High ∨
      v.hr_status = TriageLevel.Low) ∧
    (v.o2_status = TriageLevel.Critical ∨ v.o2_status = TriageLevel.High ∨
      v.o2_status = TriageLevel.Low) := by
  unfold VitalSigns.bp_status VitalSigns.hr_status VitalSigns.o2_status
  refine ⟨?_, ?_, ?_⟩ <;> split_ifs <;> simp

/-- Claim C7: each classifier is deterministic and side-effect-free; in
particular the result depends only on the relevant field, so two records
agreeing on that field classify identically. -/
theorem classifiers_deterministic (v w : VitalSigns) :
    (v.blood_pressure = w.blood_pressure → v.bp_status = w.bp_status) ∧
    (v.heart_rate = w.heart_rate → v.hr_status = w.hr_status) ∧
    (v.oxygen_saturation = w.oxygen_saturation →
      v.o2_status = w.o2_status) := by
  unfold VitalSigns.bp_status VitalSigns.hr_status VitalSigns.o2_status
  refine ⟨?_, ?_, ?_⟩ <;> intro h <;> rw [h]

/-- Witness for C7 at concrete inputs: two identical-field records (one
differing elsewhere) classify identically. -/
theorem classifiers_deterministic_witness :
    VitalSigns.bp_status ⟨(120, 80), 72, 99, 36.5⟩ =
      VitalSigns.bp_status ⟨(120, 80), 45, 89, 37.2⟩ ∧
    VitalSigns.hr_status ⟨(120, 80), 72, 99, 36.5⟩ =
      VitalSigns.hr_status ⟨(180, 120), 72, 89, 37.2⟩ ∧
    VitalSigns.o2_status ⟨(120, 80), 72, 99, 36.5⟩ =
      VitalSigns.o2_status ⟨(180, 120), 45, 99, 37.2⟩ :=
  ⟨(classifiers_deterministic ⟨(120, 80), 72, 99, 36.5⟩
      ⟨(120, 80), 45, 89, 37.2⟩).1 rfl,
   (classifiers_deterministic ⟨(120, 80), 72, 99, 36.5⟩
      ⟨(180, 120), 72, 89, 37.2⟩).2.1 rfl,
   (classifiers_deterministic ⟨(120, 80), 72, 99, 36.5⟩
      ⟨(180, 120), 45, 99, 37.2⟩).2.2 rfl⟩

/-- Claim C8: the label and color of every severity level match the spec
table exactly. -/
theorem severity_label_color_table :
    TriageLevel.Critical.text = "CRITICAL" ∧
      TriageLevel.Critical.color = (231, 76, 60) ∧
    TriageLevel.High.text = "HIGH" ∧
      TriageLevel.High.color = (243, 156, 18) ∧
    TriageLevel.Medium.text = "MEDIUM" ∧
      TriageLevel.Medium.color = (241, 196, 15) ∧
    TriageLevel.Low.text = "LOW" ∧
      TriageLevel.Low.color = (46, 204, 113) :=
  ⟨rfl, rfl, rfl, rfl, rfl, rfl, rfl, rfl⟩

/-- Counterexample to claim C2 as stated: the first demo patient does have
BP (180,120), HR 45, O2 89, yet `bp_status` classifies (180,120) as
`High`, not `Critical`, because both comparisons are strict. -/
theorem demo_patient_bp_not_critical :
    ((create_demo_patients 0).head?.map (fun p =>
        (p.vitals.blood_pressure, p.vitals.heart_rate,
         p.vitals.oxygen_saturation, p.vitals.bp_status))) =
      some ((180, 120), 45, 89, TriageLevel.High) ∧
    TriageLevel.High ≠ TriageLevel.Critical :=
  ⟨rfl, by decide⟩

/-- Claim C2 as amended: the first demo patient (BP (180,120), HR 45,
O2 89) classifies as BP=High, HR=Critical, O2=Critical, and the last demo
patient (BP (120,80), HR 72, O2 99) as BP=Low, HR=Low, O2=Low, whatever
the startup timestamp. -/
theorem demo_patient_statuses (now : Nat) :
    ((create_demo_patients now).map (fun p =>
        (p.vitals.bp_status, p.vitals.hr_status,
         p.vitals.o2_status))).head? =
      some (TriageLevel.High, TriageLevel.Critical, TriageLevel.Critical) ∧
    ((create_demo_patients now).map (fun p =>
        (p.vitals.bp_status, p.vitals.hr_status,
         p.vitals.o2_status))).getLast? =
      some (TriageLevel.Low, TriageLevel.Low, TriageLevel.Low) :=
  ⟨rfl, rfl⟩

/-- Claim C9: when Send fires on an input whose trimmed text is empty the
chat state is unchanged; otherwise exactly one message is appended, with
the untrimmed input as text, urgent false, sender "Dr. Ahmed Al-Mansoori",
and the input field is cleared. -/
theorem send_chat_message_spec (freshId now : Nat) (st : ChatState) :
    (trimIsEmpty st.chat_input = true →
      sendChatMessage freshId now st = st) ∧
    (trimIsEmpty st.chat_input = false →
      (sendChatMessage freshId now st).chat_messages =
        st.chat_messages ++
          [{ id := freshId
             sender := "Dr. Ahmed Al-Mansoori"
             message := st.chat_input
             timestamp := now
             urgent := false }] ∧
      (sendChatMessage freshId now st).chat_input = "") := by
  unfold sendChatMessage
  constructor
  · intro h
    simp [h]
  · intro h
    simp [h]

/-- Witness for C9 at concrete inputs: a whitespace-only input leaves the
state untouched, and a non-blank input "help" is appended verbatim with
the fixed sender, non-urgent, and clears the field. -/
theorem send_chat_message_spec_witness :
    sendChatMessage 1 2 ⟨[], " "⟩ = ⟨[], " "⟩ ∧
    (sendChatMessage 1 2 ⟨[], "help"⟩).chat_messages =
      [{ id := 1
         sender := "Dr. Ahmed Al-Mansoori"
         message := "help"
         timestamp := 2
         urgent := false }] ∧
    (sendChatMessage 1 2 ⟨[], "help"⟩).chat_input = "" := by
  refine ⟨(send_chat_message_spec 1 2 ⟨[], " "⟩).1 (by decide), ?_, ?_⟩
  · have h := ((send_chat_message_spec 1 2 ⟨[], "help"⟩).2 (by decide)).1
    simpa using h
  · exact ((send_chat_message_spec 1 2 ⟨[], "help"⟩).2 (by decide)).2

/-- Claim C10: `bp_status` is monotone in each argument separately under
the severity order measured by `TriageLevel.rank`: with the diastolic
value fixed, a larger systolic value never yields a lower severity, and
symmetrically. -/
theorem bp_status_monotone (v w : VitalSigns) :
    (v.blood_pressure.2 = w.blood_pressure.2 →
      v.blood_pressure.1 ≤ w.blood_pressure.1 →
      v.bp_status.rank ≤ w.bp_status.rank) ∧
    (v.blood_pressure.1 = w.blood_pressure.1 →
      v.blood_pressure.2 ≤ w.blood_pressure.2 →
      v.bp_status.rank ≤ w.bp_status.rank) := by
  unfold VitalSigns.bp_status
  constructor <;> intro he hle <;> split_ifs <;>
    simp_all [TriageLevel.rank] <;> omega

/-- Witness for C10 at concrete inputs: raising the systolic value from
120 to 150 (diastolic fixed at 80), and the diastolic value from 80 to 95
(systolic fixed at 120), never lowers the severity rank. -/
theorem bp_status_monotone_witness :
    (VitalSigns.bp_status ⟨(120, 80), 72, 99, 36.5⟩).rank ≤
      (VitalSigns.bp_status ⟨(150, 80), 72, 99, 36.5⟩).rank ∧
    (VitalSigns.bp_status ⟨(120, 80), 72, 99, 36.5⟩).rank ≤
      (VitalSigns.bp_status ⟨(120, 95), 72, 99, 36.5⟩).rank :=
  ⟨(bp_status_monotone ⟨(120, 80), 72, 99, 36.5⟩
      ⟨(150, 80), 72, 99, 36.5⟩).1 rfl (by decide),
   (bp_status_monotone ⟨(120, 80), 72, 99, 36.5⟩
      ⟨(120, 95), 72, 99, 36.5⟩).2 rfl (by decide)⟩

/-- Witness for C1 at concrete inputs: (181,0) is Critical, (150,80) is
High, (120,80) is Low. -/
theorem bp_classifier_thresholds_witness :
    VitalSigns.bp_status ⟨(181, 0), 72, 99, 36.5⟩ = TriageLevel.Critical ∧
    VitalSigns.bp_status ⟨(150, 80), 72, 99, 36.5⟩ = TriageLevel.High ∧
    VitalSigns.bp_status ⟨(120, 80), 72, 99, 36.5⟩ = TriageLevel.Low :=
  ⟨(bp_classifier_thresholds ⟨(181, 0), 72, 99, 36.5⟩).1.mpr (by decide),
   (bp_classifier_thresholds ⟨(150, 80), 72, 99, 36.5⟩).2.1.mpr (by decide),
   (bp_classifier_thresholds ⟨(120, 80), 72, 99, 36.5⟩).2.2.1.mpr
     (by decide)⟩

/-- Witness for C3 at concrete inputs: 45 is Critical, 55 is High, 72 is
Low. -/
theorem hr_classifier_thresholds_witness :
    VitalSigns.hr_status ⟨(120, 80), 45, 99, 36.5⟩ = TriageLevel.Critical ∧
    VitalSigns.hr_status ⟨(120, 80), 55, 99, 36.5⟩ = TriageLevel.High ∧
    VitalSigns.hr_status ⟨(120, 80), 72, 99, 36.5⟩ = TriageLevel.Low :=
  ⟨(hr_classifier_thresholds ⟨(120, 80), 45, 99, 36.5⟩).1.mpr (by decide),
   (hr_classifier_thresholds ⟨(120, 80), 55, 99, 36.5⟩).2.1.mpr (by decide),
   (hr_classifier_thresholds ⟨(120, 80), 72, 99, 36.5⟩).2.2.1.mpr
     (by decide)⟩

/-- Witness for C4 at concrete inputs: 89 is Critical, 91 is High, 99 is
Low. -/
theorem o2_classifier_thresholds_witness :
    VitalSigns.o2_status ⟨(120, 80), 72, 89, 36.5⟩ = TriageLevel.Critical ∧
    VitalSigns.o2_status ⟨(120, 80), 72, 91, 36.5⟩ = TriageLevel.High ∧
    VitalSigns.o2_status ⟨(120, 80), 72, 99, 36.5⟩ = TriageLevel.Low :=
  ⟨(o2_classifier_thresholds ⟨(120, 80), 72, 89, 36.5⟩).1.mpr (by decide),
   (o2_classifier_thresholds ⟨(120, 80), 72, 91, 36.5⟩).2.1.mpr (by decide),
   (o2_classifier_thresholds ⟨(120, 80), 72, 99, 36.5⟩).2.2.1.mpr
     (by decide)⟩

/-- Witness for C5 at a concrete input. -/
theorem classifiers_never_medium_witness :
    VitalSigns.bp_status ⟨(120, 80), 72, 99, 36.5⟩ ≠ TriageLevel.Medium ∧
    VitalSigns.hr_status ⟨(120, 80), 72, 99, 36.5⟩ ≠ TriageLevel.Medium ∧
    VitalSigns.o2_status ⟨(120, 80), 72, 99, 36.5⟩ ≠ TriageLevel.Medium :=
  classifiers_never_medium ⟨(120, 80), 72, 99, 36.5⟩

/-- Witness for C6 at a physically implausible concrete input (negative
pressures and rate, saturation above 100). -/
theorem classifiers_total_witness :
    (VitalSigns.bp_status ⟨(-5, -5), -10, 150, 0.0⟩ = TriageLevel.Critical ∨
      VitalSigns.bp_status ⟨(-5, -5), -10, 150, 0.0⟩ = TriageLevel.High ∨
      VitalSigns.bp_status ⟨(-5, -5), -10, 150, 0.0⟩ = TriageLevel.Low) ∧
    (VitalSigns.hr_status ⟨(-5, -5), -10, 150, 0.0⟩ = TriageLevel.Critical ∨
      VitalSigns.hr_status ⟨(-5, -5), -10, 150, 0.0⟩ = TriageLevel.High ∨
      VitalSigns.hr_status ⟨(-5, -5), -10, 150, 0.0⟩ = TriageLevel.Low) ∧
    (VitalSigns.o2_status ⟨(-5, -5), -10, 150, 0.0⟩ = TriageLevel.Critical ∨
      VitalSigns.o2_status ⟨(-5, -5), -10, 150, 0.0⟩ = TriageLevel.High ∨
      VitalSigns.o2_status ⟨(-5, -5), -10, 150, 0.0⟩ = TriageLevel.Low) :=
  classifiers_total ⟨(-5, -5), -10, 150, 0.0⟩

/-- Witness for the amended C2 at the concrete startup timestamp 0. -/
theorem demo_patient_statuses_witness :
    ((create_demo_patients 0).map (fun p =>
        (p.vitals.bp_status, p.vitals.hr_status,
         p.vitals.o2_status))).head? =
      some (TriageLevel.High, TriageLevel.Critical, TriageLevel.Critical) ∧
    ((create_demo_patients 0).map (fun p =>
        (p.vitals.bp_status, p.vitals.hr_status,
         p.vitals.o2_status))).getLast? =
      some (TriageLevel.Low, TriageLevel.Low, TriageLevel.Low) :=
  demo_patient_statuses 0
